import Mathlib

/-
Verification of the aws_health_check middleware (src/index.js).

The repository holds two revisions of the same file: the final revision
(exporting setHealthyFlag / setHealthy / setUnhealthy, whose success
response is `isHealthy ? 200 : 503`) and an earlier revision (exporting
only the generic setter, whose success response is a plain 200).  Both
handlers are embedded below; `heartbeat` is the final revision and
`heartbeatV0` the earlier one.

Modelling choices:
  * a request handler is embedded as a pure function from the normalized
    configuration, the current value of the process-wide `isHealthy`
    flag, the filesystem state, and the request, to a list of observable
    effects (stat calls issued, log lines, the HTTP response written, or
    the invocation of the next-handler callback);
  * the filesystem state maps each path to `none` (fs.stat succeeds) or
    `some e` (fs.stat reports error `e`);
  * dynamically typed configuration values are embedded as `JsVal`, the
    shapes the normalization code distinguishes with the underscore type
    predicates `_.isString`, `_.isArray`, `_.isBoolean`.
-/

namespace AwsHealthCheck

/-- A dynamically typed configuration value, as inspected by the
underscore type predicates in `healthCheck` (src/index.js lines 49-66). -/
inductive JsVal where
  | undef : JsVal
  | bool : Bool → JsVal
  | num : Int → JsVal
  | str : String → JsVal
  | arr : List String → JsVal
  deriving Repr, DecidableEq

/-- The `options` object passed to `healthCheck`; each field may hold any
value (absent fields are `JsVal.undef`). -/
structure Options where
  path : JsVal
  requiredLocalPaths : JsVal
  debug : JsVal
  deriving Repr, DecidableEq

/-- The configuration after the in-place normalization that `healthCheck`
performs once at construction time. -/
structure Config where
  path : String
  requiredLocalPaths : List String
  debug : Bool
  deriving Repr, DecidableEq

/-- Whether a string starts with the slash character, as tested by
`options.path.startsWith('/')`. -/
def startsWithSlash (s : String) : Bool :=
  match s.data with
  | [] => false
  | c :: _ => c = '/'

/-- Configuration normalization, translated from src/index.js lines 49-66:
a `path` that is not a string, is empty, or does not start with a slash is
replaced by the default route; a `requiredLocalPaths` that is not an array
is replaced by the empty array; `debug` enables logging only when it is
the boolean `true` (`_.isBoolean(options.debug) && options.debug`).
Normalization is a total function: it never raises. -/
def healthCheck (options : Options) : Config :=
  { path :=
      match options.path with
      | JsVal.str s => if s.length = 0 ∨ ¬ (startsWithSlash s) then defaultRoute else s
      | _ => defaultRoute
    requiredLocalPaths :=
      match options.requiredLocalPaths with
      | JsVal.arr xs => xs
      | _ => []
    debug :=
      match options.debug with
      | JsVal.bool b => b
      | _ => false }
where defaultRoute : String := "/heartbeat"

/-- An incoming HTTP request: its raw URL and its method. -/
structure Request where
  url : String
  method : String
  deriving Repr, DecidableEq

/-- The path component of a request URL, ignoring the query string and
fragment, as computed by `parseUrl(req).pathname`. -/
def pathname (url : String) : String :=
  String.mk (url.toList.takeWhile (fun c => c != '?' && c != '#'))

/-- Filesystem state at check time: `fs p = none` means `fs.stat(p)`
succeeds, `fs p = some e` means it reports error `e`. -/
def FsState : Type := String → Option String

/-- An observable effect of one handler invocation. -/
inductive Effect where
  | statCheck : String → Effect
  | log : String → Effect
  | respond : Nat → Effect
  | callNext : Option String → Effect
  deriving Repr, DecidableEq

/-- The `log` helper inside `healthCheck`: emits the line only when the
normalized debug flag is true. -/
def logIf (debug : Bool) (msg : String) : List Effect :=
  if debug then [Effect.log msg] else []

/-- Effects of the `async.each` fan-out over the required local paths
(src/index.js lines 82-92): every path is stat-ed, and each failing stat
logs a diagnostic naming the path. -/
def statEffects (debug : Bool) (fs : FsState) : List String → List Effect
  | [] => []
  | p :: ps =>
      Effect.statCheck p ::
        ((if (fs p).isSome then
            logIf debug ("Health Check Failed: Invalid local path " ++ p)
          else []) ++ statEffects debug fs ps)

/-- The error the `async.each` completion callback receives: the error of
the first required local path whose stat fails, `none` if all succeed. -/
def firstStatError (fs : FsState) : List String → Option String
  | [] => none
  | p :: ps =>
      match fs p with
      | some e => some e
      | none => firstStatError fs ps

/-- The final revision of the middleware handler, translated from
src/index.js lines 68-98. -/
def heartbeat (cfg : Config) (isHealthy : Bool) (fs : FsState) (req : Request) :
    List Effect :=
  if cfg.requiredLocalPaths.length = 0 then
    [Effect.respond (if isHealthy then 200 else 503)]
  else if pathname req.url ≠ cfg.path then
    [Effect.callNext none]
  else if req.method ≠ "GET" then
    logIf cfg.debug "Health check requests should have method GET" ++
      [Effect.respond 405]
  else
    statEffects cfg.debug fs cfg.requiredLocalPaths ++
      (match firstStatError fs cfg.requiredLocalPaths with
       | some e => [Effect.callNext (some e)]
       | none => [Effect.respond (if isHealthy then 200 else 503)])

/-- The earlier revision of the handler (src/index.js lines 160-190): it
differs from the final one only in the completion callback, which responds
with a plain 200 when every stat succeeds. -/
def heartbeatV0 (cfg : Config) (isHealthy : Bool) (fs : FsState) (req : Request) :
    List Effect :=
  if cfg.requiredLocalPaths.length = 0 then
    [Effect.respond (if isHealthy then 200 else 503)]
  else if pathname req.url ≠ cfg.path then
    [Effect.callNext none]
  else if req.method ≠ "GET" then
    logIf cfg.debug "Health check requests should have method GET" ++
      [Effect.respond 405]
  else
    statEffects cfg.debug fs cfg.requiredLocalPaths ++
      (match firstStatError fs cfg.requiredLocalPaths with
       | some e => [Effect.callNext (some e)]
       | none => [Effect.respond 200])

/-- Initial value of the process-wide healthiness flag
(src/index.js line 8). -/
def isHealthyInit : Bool := true

/-- `setHealthyFlag(status)` as a transition on the flag
(src/index.js lines 16-18). -/
def setHealthyFlag (status : Bool) (_ : Bool) : Bool := status

/-- `setHealthy()` as a transition on the flag (src/index.js lines 23-25). -/
def setHealthy (_ : Bool) : Bool := true

/-- `setUnhealthy()` as a transition on the flag
(src/index.js lines 30-32). -/
def setUnhealthy (_ : Bool) : Bool := false

/-- The operations of the component that touch (read or could write) the
process-wide flag. -/
inductive Op where
  | opSetHealthyFlag : Bool → Op
  | opSetHealthy : Op
  | opSetUnhealthy : Op
  | opHandleRequest : Config → FsState → Request → Op

/-- Effect of each operation on the flag.  The handler body
(src/index.js lines 68-98) contains no assignment to `isHealthy`, so a
request leaves the flag unchanged. -/
def applyOp : Op → Bool → Bool
  | Op.opSetHealthyFlag b, h => setHealthyFlag b h
  | Op.opSetHealthy, h => setHealthy h
  | Op.opSetUnhealthy, h => setUnhealthy h
  | Op.opHandleRequest _ _ _, h => h

/-- Whether an effect is terminal: an HTTP response written or the
next-handler callback invoked. -/
def isTerminal : Effect → Bool
  | Effect.respond _ => true
  | Effect.callNext _ => true
  | _ => false

/-- Log effects are never terminal: the filter of a `logIf` is empty. -/
theorem filter_isTerminal_logIf (d : Bool) (m : String) :
    (logIf d m).filter isTerminal = [] := by
  cases d <;> simp [logIf, isTerminal]

/-- Stat calls and their failure logs are never terminal effects. -/
theorem filter_isTerminal_statEffects (d : Bool) (fs : FsState) (ps : List String) :
    (statEffects d fs ps).filter isTerminal = [] := by
  induction ps with
  | nil => rfl
  | cons p ps ih =>
      simp only [statEffects, List.filter_cons, List.filter_append, ih]
      cases hp : (fs p).isSome <;>
        simp [isTerminal, filter_isTerminal_logIf]

/-- A member of the stat fan-out effect list is not terminal. -/
theorem not_terminal_of_mem_statEffects (d : Bool) (fs : FsState) (ps : List String)
    (e : Effect) (he : e ∈ statEffects d fs ps) : isTerminal e = false := by
  by_contra hterm
  have : e ∈ (statEffects d fs ps).filter isTerminal :=
    List.mem_filter.mpr ⟨he, by simpa using hterm⟩
  rw [filter_isTerminal_statEffects] at this
  exact absurd this (List.not_mem_nil e)

/-- When every required local path stats cleanly, the completion callback
receives no error. -/
theorem firstStatError_eq_none (fs : FsState) (ps : List String)
    (h : ∀ p ∈ ps, fs p = none) : firstStatError fs ps = none := by
  induction ps with
  | nil => rfl
  | cons p ps ih =>
      have hp : fs p = none := h p (by simp)
      simp only [firstStatError, hp]
      exact ih (fun q hq => h q (List.mem_cons_of_mem p hq))

/-- The error the completion callback receives is the stat error of one of
the required local paths. -/
theorem firstStatError_mem (fs : FsState) (ps : List String) (e : String)
    (h : firstStatError fs ps = some e) : ∃ p ∈ ps, fs p = some e := by
  induction ps with
  | nil => exact absurd h (by simp [firstStatError])
  | cons p ps ih =>
      revert h
      simp only [firstStatError]
      cases hp : fs p with
      | some e2 =>
          intro h
          exact ⟨p, List.mem_cons_self p ps, by rw [hp, Option.some_inj.mp h]⟩
      | none =>
          intro h
          obtain ⟨q, hq, hqe⟩ := ih h
          exact ⟨q, List.mem_cons_of_mem p hq, hqe⟩

/-- When some required local path fails to stat, the completion callback
receives an error. -/
theorem firstStatError_isSome (fs : FsState) (ps : List String)
    (h : ∃ p ∈ ps, (fs p).isSome) : ∃ e, firstStatError fs ps = some e := by
  induction ps with
  | nil => simp at h
  | cons p ps ih =>
      simp only [firstStatError]
      cases hp : fs p with
      | some e => exact ⟨e, rfl⟩
      | none =>
          apply ih
          obtain ⟨q, hq, hqs⟩ := h
          rcases List.mem_cons.mp hq with rfl | hq2
          · rw [hp] at hqs; exact absurd hqs (by simp)
          · exact ⟨q, hq2, hqs⟩

/-- Unfolding of the final handler on the local-path-verification branch:
required local paths configured, path matches, method is GET. -/
theorem heartbeat_check_branch (cfg : Config) (isHealthy : Bool) (fs : FsState)
    (req : Request)
    (hne : cfg.requiredLocalPaths ≠ [])
    (hpath : pathname req.url = cfg.path)
    (hmeth : req.method = "GET") :
    heartbeat cfg isHealthy fs req =
      statEffects cfg.debug fs cfg.requiredLocalPaths ++
        (match firstStatError fs cfg.requiredLocalPaths with
         | some e => [Effect.callNext (some e)]
         | none => [Effect.respond (if isHealthy then 200 else 503)]) := by
  simp [heartbeat, List.length_eq_zero, hne, hpath, hmeth]

/-- Unfolding of the earlier handler on the same branch. -/
theorem heartbeatV0_check_branch (cfg : Config) (isHealthy : Bool) (fs : FsState)
    (req : Request)
    (hne : cfg.requiredLocalPaths ≠ [])
    (hpath : pathname req.url = cfg.path)
    (hmeth : req.method = "GET") :
    heartbeatV0 cfg isHealthy fs req =
      statEffects cfg.debug fs cfg.requiredLocalPaths ++
        (match firstStatError fs cfg.requiredLocalPaths with
         | some e => [Effect.callNext (some e)]
         | none => [Effect.respond 200]) := by
  simp [heartbeatV0, List.length_eq_zero, hne, hpath, hmeth]

/-- Inversion: the final handler only ever calls the next handler with an
error on the local-path-verification branch, and the error is the stat
error of one of the configured paths. -/
theorem callNext_some_mem_heartbeat (cfg : Config) (isHealthy : Bool) (fs : FsState)
    (req : Request) (e : String)
    (hmem : Effect.callNext (some e) ∈ heartbeat cfg isHealthy fs req) :
    cfg.requiredLocalPaths ≠ [] ∧ pathname req.url = cfg.path ∧
      req.method = "GET" ∧ ∃ p ∈ cfg.requiredLocalPaths, fs p = some e := by
  unfold heartbeat at hmem
  by_cases h0 : cfg.requiredLocalPaths.length = 0
  · rw [if_pos h0] at hmem
    simp at hmem
  · rw [if_neg h0] at hmem
    have hne : cfg.requiredLocalPaths ≠ [] := by
      simpa [List.length_eq_zero] using h0
    by_cases h1 : pathname req.url ≠ cfg.path
    · rw [if_pos h1] at hmem
      simp at hmem
    · rw [if_neg h1] at hmem
      push_neg at h1
      by_cases h2 : req.method ≠ "GET"
      · rw [if_pos h2] at hmem
        rcases List.mem_append.mp hmem with hm | hm
        · cases hd : cfg.debug <;> simp [logIf, hd] at hm
        · simp at hm
      · rw [if_neg h2] at hmem
        push_neg at h2
        rcases List.mem_append.mp hmem with hm | hm
        · have := not_terminal_of_mem_statEffects _ _ _ _ hm
          simp [isTerminal] at this
        · refine ⟨hne, h1, h2, ?_⟩
          cases he : firstStatError fs cfg.requiredLocalPaths with
          | none => rw [he] at hm; simp at hm
          | some e0 =>
              rw [he] at hm
              simp at hm
              rw [hm]
              exact firstStatError_mem fs _ e0 he

/-- The final handler always produces exactly one terminal effect. -/
theorem heartbeat_filter_terminal (cfg : Config) (isHealthy : Bool) (fs : FsState)
    (req : Request) :
    ∃ t, isTerminal t = true ∧
      (heartbeat cfg isHealthy fs req).filter isTerminal = [t] := by
  unfold heartbeat
  by_cases h0 : cfg.requiredLocalPaths.length = 0
  · rw [if_pos h0]
    exact ⟨Effect.respond (if isHealthy then 200 else 503), rfl, by simp [isTerminal]⟩
  · rw [if_neg h0]
    by_cases h1 : pathname req.url ≠ cfg.path
    · rw [if_pos h1]
      exact ⟨Effect.callNext none, rfl, by simp [isTerminal]⟩
    · rw [if_neg h1]
      by_cases h2 : req.method ≠ "GET"
      · rw [if_pos h2]
        refine ⟨Effect.respond 405, rfl, ?_⟩
        rw [List.filter_append, filter_isTerminal_logIf]
        simp [isTerminal]
      · rw [if_neg h2]
        cases he : firstStatError fs cfg.requiredLocalPaths with
        | none =>
            refine ⟨Effect.respond (if isHealthy then 200 else 503), rfl, ?_⟩
            rw [List.filter_append, filter_isTerminal_statEffects]
            simp [isTerminal]
        | some e =>
            refine ⟨Effect.callNext (some e), rfl, ?_⟩
            rw [List.filter_append, filter_isTerminal_statEffects]
            simp [isTerminal]

/-- Claim C1: for every request, if the configured requiredLocalPaths
sequence is empty, the handler immediately responds with status 200 when
isHealthy is true and 503 when isHealthy is false, before any path or
method matching, so no request falls through to the next handler in this
configuration.  The statement quantifies over arbitrary requests (any URL,
any method) and concludes that the only effect is the health response. -/
theorem claimC1 (cfg : Config) (isHealthy : Bool) (fs : FsState) (req : Request)
    (hempty : cfg.requiredLocalPaths = []) :
    heartbeat cfg isHealthy fs req =
      [Effect.respond (if isHealthy then 200 else 503)] := by
  simp [heartbeat, hempty]

/-- Witness for C1: a POST to an unrelated route, with no local paths
configured and the flag false, is answered 503 directly. -/
theorem claimC1_witness :
    (Config.mk "/heartbeat" [] false).requiredLocalPaths = [] ∧
    heartbeat (Config.mk "/heartbeat" [] false) false (fun _ => none)
        (Request.mk "/anything?q=1" "POST") = [Effect.respond 503] :=
  ⟨rfl,
   claimC1 (Config.mk "/heartbeat" [] false) false (fun _ => none)
     (Request.mk "/anything?q=1" "POST") rfl⟩

/-- Claim C4: for every request, when requiredLocalPaths is non-empty and
the request's URL path with the query string ignored does not equal the
configured path, the handler invokes the next-handler callback with no
arguments and writes no response. -/
theorem claimC4 (cfg : Config) (isHealthy : Bool) (fs : FsState) (req : Request)
    (hne : cfg.requiredLocalPaths ≠ [])
    (hpath : pathname req.url ≠ cfg.path) :
    heartbeat cfg isHealthy fs req = [Effect.callNext none] := by
  simp [heartbeat, List.length_eq_zero, hne, hpath]

/-- Witness for C4: with one local path configured, a GET to a different
route (whose URL carries a query string) is passed through untouched. -/
theorem claimC4_witness :
    (Config.mk "/heartbeat" ["/var/data"] false).requiredLocalPaths ≠ [] ∧
    pathname "/other?probe=1" ≠ "/heartbeat" ∧
    heartbeat (Config.mk "/heartbeat" ["/var/data"] false) true (fun _ => none)
        (Request.mk "/other?probe=1" "GET") = [Effect.callNext none] :=
  ⟨by decide, by decide,
   claimC4 (Config.mk "/heartbeat" ["/var/data"] false) true (fun _ => none)
     (Request.mk "/other?probe=1" "GET") (by decide) (by decide)⟩

/-- Claim C5: for every request with requiredLocalPaths non-empty whose
path matches the configured path but whose HTTP method is not GET, the
handler responds with status 405 and does not perform local-path checks or
invoke the next-handler callback. -/
theorem claimC5 (cfg : Config) (isHealthy : Bool) (fs : FsState) (req : Request)
    (hne : cfg.requiredLocalPaths ≠ [])
    (hpath : pathname req.url = cfg.path)
    (hmeth : req.method ≠ "GET") :
    heartbeat cfg isHealthy fs req =
      logIf cfg.debug "Health check requests should have method GET" ++
        [Effect.respond 405] ∧
    (∀ p, Effect.statCheck p ∉ heartbeat cfg isHealthy fs req) ∧
    (∀ e, Effect.callNext e ∉ heartbeat cfg isHealthy fs req) := by
  have hbr : heartbeat cfg isHealthy fs req =
      logIf cfg.debug "Health check requests should have method GET" ++
        [Effect.respond 405] := by
    simp [heartbeat, List.length_eq_zero, hne, hpath, hmeth]
  refine ⟨hbr, ?_, ?_⟩
  · intro p hmem
    rw [hbr] at hmem
    rcases List.mem_append.mp hmem with hm | hm
    · cases hd : cfg.debug <;> simp [logIf, hd] at hm
    · simp at hm
  · intro e hmem
    rw [hbr] at hmem
    rcases List.mem_append.mp hmem with hm | hm
    · cases hd : cfg.debug <;> simp [logIf, hd] at hm
    · simp at hm

/-- Witness for C5: a POST to the configured path, with a local path
configured and debug enabled, yields the method diagnostic and a 405. -/
theorem claimC5_witness :
    (Config.mk "/heartbeat" ["/var/data"] true).requiredLocalPaths ≠ [] ∧
    pathname "/heartbeat" = "/heartbeat" ∧
    "POST" ≠ "GET" ∧
    heartbeat (Config.mk "/heartbeat" ["/var/data"] true) true (fun _ => none)
        (Request.mk "/heartbeat" "POST") =
      [Effect.log "Health check requests should have method GET",
       Effect.respond 405] :=
  ⟨by decide, by decide, by decide,
   (claimC5 (Config.mk "/heartbeat" ["/var/data"] true) true (fun _ => none)
     (Request.mk "/heartbeat" "POST") (by decide) (by decide) (by decide)).1⟩

/-- Claim C8: for every starting value of the flag, setHealthy and
setUnhealthy are idempotent, setHealthyFlag true agrees with setHealthy,
and setHealthyFlag false agrees with setUnhealthy. -/
theorem claimC8 (h : Bool) :
    setHealthy (setHealthy h) = setHealthy h ∧
    setUnhealthy (setUnhealthy h) = setUnhealthy h ∧
    setHealthyFlag true h = setHealthy h ∧
    setHealthyFlag false h = setUnhealthy h :=
  ⟨rfl, rfl, rfl, rfl⟩

/-- Claim C9: the process-wide isHealthy flag is initialized to true on
load; setHealthyFlag writes its argument, setHealthy writes true,
setUnhealthy writes false; and handling a request (the only other
operation of the component) reads but never writes the flag. -/
theorem claimC9 :
    isHealthyInit = true ∧
    (∀ (b h : Bool), applyOp (Op.opSetHealthyFlag b) h = b) ∧
    (∀ h : Bool, applyOp Op.opSetHealthy h = true) ∧
    (∀ h : Bool, applyOp Op.opSetUnhealthy h = false) ∧
    (∀ (cfg : Config) (fs : FsState) (req : Request) (h : Bool),
        applyOp (Op.opHandleRequest cfg fs req) h = h) :=
  ⟨rfl, fun _ _ => rfl, fun _ => rfl, fun _ => rfl, fun _ _ _ _ => rfl⟩

/-- Claim C2: for every request with requiredLocalPaths non-empty,
matching path, and method GET, if the existence check of at least one
configured local path fails, the handler invokes the next-handler callback
with that error and writes no HTTP response itself; moreover (second
conjunct) an error reaches the next-handler callback only in exactly this
situation, so this is the only error the component surfaces to the
pipeline. -/
theorem claimC2 (cfg : Config) (isHealthy : Bool) (fs : FsState) (req : Request)
    (hne : cfg.requiredLocalPaths ≠ [])
    (hpath : pathname req.url = cfg.path)
    (hmeth : req.method = "GET")
    (hfail : ∃ p ∈ cfg.requiredLocalPaths, (fs p).isSome) :
    (∃ e, (∃ p ∈ cfg.requiredLocalPaths, fs p = some e) ∧
        (heartbeat cfg isHealthy fs req).filter isTerminal =
          [Effect.callNext (some e)]) ∧
    (∀ (cfg2 : Config) (h2 : Bool) (fs2 : FsState) (req2 : Request) (e2 : String),
        Effect.callNext (some e2) ∈ heartbeat cfg2 h2 fs2 req2 →
          cfg2.requiredLocalPaths ≠ [] ∧ pathname req2.url = cfg2.path ∧
            req2.method = "GET" ∧ ∃ p ∈ cfg2.requiredLocalPaths, fs2 p = some e2) := by
  constructor
  · obtain ⟨e, he⟩ := firstStatError_isSome fs cfg.requiredLocalPaths hfail
    refine ⟨e, firstStatError_mem fs _ e he, ?_⟩
    rw [heartbeat_check_branch cfg isHealthy fs req hne hpath hmeth, he,
      List.filter_append, filter_isTerminal_statEffects]
    simp [isTerminal]
  · intro cfg2 h2 fs2 req2 e2 hmem
    exact callNext_some_mem_heartbeat cfg2 h2 fs2 req2 e2 hmem

/-- Witness for C2: one configured local path whose stat reports ENOENT; a
GET to the configured route forwards that error to the next handler. -/
theorem claimC2_witness :
    ((Config.mk "/heartbeat" ["/var/data"] false).requiredLocalPaths ≠ [] ∧
     pathname "/heartbeat?x=1" = "/heartbeat" ∧
     "GET" = "GET" ∧
     (∃ p ∈ (Config.mk "/heartbeat" ["/var/data"] false).requiredLocalPaths,
        ((fun p => if p = "/var/data" then some "ENOENT" else none) p).isSome)) ∧
    ((∃ e, (∃ p ∈ (Config.mk "/heartbeat" ["/var/data"] false).requiredLocalPaths,
          (fun p => if p = "/var/data" then some "ENOENT" else (none : Option String)) p =
            some e) ∧
        (heartbeat (Config.mk "/heartbeat" ["/var/data"] false) true
            (fun p => if p = "/var/data" then some "ENOENT" else none)
            (Request.mk "/heartbeat?x=1" "GET")).filter isTerminal =
          [Effect.callNext (some e)]) ∧
     (∀ (cfg2 : Config) (h2 : Bool) (fs2 : FsState) (req2 : Request) (e2 : String),
        Effect.callNext (some e2) ∈ heartbeat cfg2 h2 fs2 req2 →
          cfg2.requiredLocalPaths ≠ [] ∧ pathname req2.url = cfg2.path ∧
            req2.method = "GET" ∧ ∃ p ∈ cfg2.requiredLocalPaths, fs2 p = some e2)) :=
  ⟨⟨by decide, by decide, rfl, by decide⟩,
   claimC2 (Config.mk "/heartbeat" ["/var/data"] false) true
     (fun p => if p = "/var/data" then some "ENOENT" else none)
     (Request.mk "/heartbeat?x=1" "GET") (by decide) (by decide) rfl (by decide)⟩

/-- Counterexample to claim C3 as stated: in the final revision the
success response is `isHealthy ? 200 : 503`, not an unconditional 200.
With one configured local path that exists, a matching GET, and the flag
false, the handler responds 503 and never writes a 200. -/
theorem claimC3_counterexample :
    heartbeat (Config.mk "/heartbeat" ["/var/data"] false) false (fun _ => none)
        (Request.mk "/heartbeat" "GET") =
      [Effect.statCheck "/var/data", Effect.respond 503] ∧
    Effect.respond 200 ∉
      heartbeat (Config.mk "/heartbeat" ["/var/data"] false) false (fun _ => none)
        (Request.mk "/heartbeat" "GET") := by
  constructor
  · decide
  · decide

/-- Claim C3 as amended: with requiredLocalPaths non-empty, matching path,
method GET, and every existence check succeeding, the final revision
responds 200 when isHealthy is true and 503 when it is false, while the
earlier revision responds 200 regardless of isHealthy. -/
theorem claimC3_amended (cfg : Config) (isHealthy : Bool) (fs : FsState)
    (req : Request)
    (hne : cfg.requiredLocalPaths ≠ [])
    (hpath : pathname req.url = cfg.path)
    (hmeth : req.method = "GET")
    (hok : ∀ p ∈ cfg.requiredLocalPaths, fs p = none) :
    (heartbeat cfg isHealthy fs req).filter isTerminal =
        [Effect.respond (if isHealthy then 200 else 503)] ∧
    (heartbeatV0 cfg isHealthy fs req).filter isTerminal = [Effect.respond 200] := by
  have he := firstStatError_eq_none fs cfg.requiredLocalPaths hok
  constructor
  · rw [heartbeat_check_branch cfg isHealthy fs req hne hpath hmeth, he,
      List.filter_append, filter_isTerminal_statEffects]
    simp [isTerminal]
  · rw [heartbeatV0_check_branch cfg isHealthy fs req hne hpath hmeth, he,
      List.filter_append, filter_isTerminal_statEffects]
    simp [isTerminal]

/-- Witness for the amended C3: one existing local path, matching GET,
flag false: the final handler answers 503, the earlier one 200. -/
theorem claimC3_amended_witness :
    ((Config.mk "/heartbeat" ["/var/data"] false).requiredLocalPaths ≠ [] ∧
     pathname "/heartbeat" = "/heartbeat" ∧
     "GET" = "GET" ∧
     (∀ p ∈ (Config.mk "/heartbeat" ["/var/data"] false).requiredLocalPaths,
        (fun _ => (none : Option String)) p = none)) ∧
    ((heartbeat (Config.mk "/heartbeat" ["/var/data"] false) false (fun _ => none)
        (Request.mk "/heartbeat" "GET")).filter isTerminal =
      [Effect.respond 503] ∧
     (heartbeatV0 (Config.mk "/heartbeat" ["/var/data"] false) false (fun _ => none)
        (Request.mk "/heartbeat" "GET")).filter isTerminal =
      [Effect.respond 200]) :=
  ⟨⟨by decide, by decide, rfl, by decide⟩,
   claimC3_amended (Config.mk "/heartbeat" ["/var/data"] false) false (fun _ => none)
     (Request.mk "/heartbeat" "GET") (by decide) (by decide) rfl (by decide)⟩

/-- Claim C7: a single handler invocation either writes exactly one
terminal HTTP response or invokes the next-handler callback exactly once,
and never does both: the list of terminal effects has length one, and the
effect list never contains both a response and a next-handler call. -/
theorem claimC7 (cfg : Config) (isHealthy : Bool) (fs : FsState) (req : Request) :
    ((heartbeat cfg isHealthy fs req).filter isTerminal).length = 1 ∧
    ¬ ((∃ s, Effect.respond s ∈ heartbeat cfg isHealthy fs req) ∧
       (∃ e, Effect.callNext e ∈ heartbeat cfg isHealthy fs req)) := by
  obtain ⟨t, ht, hfilter⟩ := heartbeat_filter_terminal cfg isHealthy fs req
  constructor
  · rw [hfilter]; rfl
  · rintro ⟨⟨s, hs⟩, ⟨e, hec⟩⟩
    have hs2 : Effect.respond s ∈ (heartbeat cfg isHealthy fs req).filter isTerminal :=
      List.mem_filter.mpr ⟨hs, rfl⟩
    have he2 : Effect.callNext e ∈ (heartbeat cfg isHealthy fs req).filter isTerminal :=
      List.mem_filter.mpr ⟨hec, rfl⟩
    rw [hfilter] at hs2 he2
    have h1 : Effect.respond s = t := List.mem_singleton.mp hs2
    have h2 : Effect.callNext e = t := List.mem_singleton.mp he2
    rw [← h2] at h1
    exact Effect.noConfusion h1

/-- Claim C10: in the final revision, with requiredLocalPaths non-empty,
matching path, method GET, all existence checks succeeding, and isHealthy
false, the handler responds 503 and forwards no error to the next
handler. -/
theorem claimC10 (cfg : Config) (fs : FsState) (req : Request)
    (hne : cfg.requiredLocalPaths ≠ [])
    (hpath : pathname req.url = cfg.path)
    (hmeth : req.method = "GET")
    (hok : ∀ p ∈ cfg.requiredLocalPaths, fs p = none) :
    (heartbeat cfg false fs req).filter isTerminal = [Effect.respond 503] ∧
    (∀ e, Effect.callNext e ∉ heartbeat cfg false fs req) := by
  have he := firstStatError_eq_none fs cfg.requiredLocalPaths hok
  have hbr := heartbeat_check_branch cfg false fs req hne hpath hmeth
  rw [he] at hbr
  constructor
  · rw [hbr, List.filter_append, filter_isTerminal_statEffects]
    simp [isTerminal]
  · intro e hmem
    rw [hbr] at hmem
    rcases List.mem_append.mp hmem with hm | hm
    · have := not_terminal_of_mem_statEffects _ _ _ _ hm
      simp [isTerminal] at this
    · simp at hm

/-- Witness for C10: one existing local path, matching GET, flag false:
the final handler's only terminal effect is a 503 response. -/
theorem claimC10_witness :
    ((Config.mk "/heartbeat" ["/var/data"] false).requiredLocalPaths ≠ [] ∧
     pathname "/heartbeat" = "/heartbeat" ∧
     "GET" = "GET" ∧
     (∀ p ∈ (Config.mk "/heartbeat" ["/var/data"] false).requiredLocalPaths,
        (fun _ => (none : Option String)) p = none)) ∧
    ((heartbeat (Config.mk "/heartbeat" ["/var/data"] false) false (fun _ => none)
        (Request.mk "/heartbeat" "GET")).filter isTerminal =
      [Effect.respond 503] ∧
     (∀ e, Effect.callNext e ∉
        heartbeat (Config.mk "/heartbeat" ["/var/data"] false) false (fun _ => none)
          (Request.mk "/heartbeat" "GET"))) :=
  ⟨⟨by decide, by decide, rfl, by decide⟩,
   claimC10 (Config.mk "/heartbeat" ["/var/data"] false) (fun _ => none)
     (Request.mk "/heartbeat" "GET") (by decide) (by decide) rfl (by decide)⟩

/-- Claim C6: construction normalizes every configuration value without
raising (normalization is a total function): whenever `path` is absent,
not a string, empty, or does not start with a slash, the effective path is
the default route; whenever `requiredLocalPaths` is absent or not a
sequence, the effective sequence is empty. -/
theorem claimC6 (popt rlp dbg : JsVal) :
    ((∀ s, popt = JsVal.str s → s.length = 0 ∨ ¬ (startsWithSlash s)) →
        (healthCheck (Options.mk popt rlp dbg)).path = "/heartbeat") ∧
    ((∀ xs, rlp ≠ JsVal.arr xs) →
        (healthCheck (Options.mk popt rlp dbg)).requiredLocalPaths = []) := by
  constructor
  · intro hbad
    cases popt with
    | str s =>
        have hcond := hbad s rfl
        show (if s.length = 0 ∨ ¬ (startsWithSlash s) then healthCheck.defaultRoute
          else s) = "/heartbeat"
        rw [if_pos hcond]
        rfl
    | undef => rfl
    | bool b => rfl
    | num n => rfl
    | arr xs => rfl
  · intro hbad
    cases rlp with
    | arr xs => exact absurd rfl (hbad xs)
    | undef => rfl
    | bool b => rfl
    | num n => rfl
    | str s => rfl

/-- Witness for C6, exercising three invalid shapes: a numeric `path`
with an absent `requiredLocalPaths`, and a string `path` missing the
leading slash with a numeric `requiredLocalPaths`. -/
theorem claimC6_witness :
    (healthCheck (Options.mk (JsVal.num 5) JsVal.undef JsVal.undef)).path =
        "/heartbeat" ∧
    (healthCheck (Options.mk (JsVal.num 5) JsVal.undef JsVal.undef)).requiredLocalPaths =
        [] ∧
    (healthCheck (Options.mk (JsVal.str "heartbeat") (JsVal.num 3) (JsVal.bool true))).path =
        "/heartbeat" ∧
    (healthCheck (Options.mk (JsVal.str "heartbeat") (JsVal.num 3) (JsVal.bool true))).requiredLocalPaths =
        [] :=
  ⟨(claimC6 (JsVal.num 5) JsVal.undef JsVal.undef).1 (fun s h => nomatch h),
   (claimC6 (JsVal.num 5) JsVal.undef JsVal.undef).2 (fun xs h => nomatch h),
   (claimC6 (JsVal.str "heartbeat") (JsVal.num 3) (JsVal.bool true)).1
     (fun s h => by cases h; exact Or.inr (by decide)),
   (claimC6 (JsVal.str "heartbeat") (JsVal.num 3) (JsVal.bool true)).2
     (fun xs h => nomatch h)⟩

end AwsHealthCheck
